import Mathlib

/-!
# Verification of the Performance Optimizer extension

A shallow embedding, in Lean 4, of the core logic of the
Performance-Optimizer SillyTavern extension (source files
`src/index.js`, `src/unnamed/part_000`, `src/unnamed/part_001`):

* the compiled-pattern (RegExp) cache `Cached` installed by
  `enableRegexCache` / removed by `disableRegexCache`;
* the streaming-phase controller (`onGenerationStarted`,
  `onStreamTokenReceived`, `onGenerationEnded`) with the
  `disabledExtensions` suspension list;
* the settings merge `getSettings`;
* the scroll-anchor preserver `onVisibilityChange`;
* the initialization wrappers (`init`).

JavaScript `Map` objects are modelled as association lists in insertion
order (oldest entry first), matching `Map` iteration order.  Reference
identity of compiled RegExp objects is modelled by a numeric `id` tag:
each fresh compilation gets a fresh id, so two results are
reference-equal exactly when their ids agree.
-/

set_option autoImplicit false
set_option maxRecDepth 100000

namespace PerfOpt

/-- Look up the first entry with the given key in an association list.
Models JavaScript `Map.prototype.get` / `Map.prototype.has` (a `Map`
never holds duplicate keys, so "first" is exact). -/
def assocGet {α : Type} (k : String) : List (String × α) → Option α
  | [] => none
  | e :: rest => if e.1 = k then some e.2 else assocGet k rest

/-- A compiled RegExp object.  `id` models the object's reference
identity; `lastIndex` is the mutable read cursor. -/
structure RegexObj where
  id : Nat
  source : String
  flags : String
  lastIndex : Nat
  deriving Repr, DecidableEq

/-- `CACHE_MAX_SIZE` from the source. -/
def CACHE_MAX_SIZE : Nat := 500

/-- State touched by the `Cached` constructor: the `regexCache` map (in
insertion order, oldest first), the hit/miss counters from `stats`, and
a fresh-id supply modelling allocation of new RegExp objects. -/
structure CacheState where
  cache : List (String × RegexObj)
  regexCacheHits : Nat
  regexCacheMisses : Nat
  nextId : Nat
  deriving Repr, DecidableEq

/-- The state at module load: `regexCache = new Map()`, zeroed stats. -/
def initialCacheState : CacheState :=
  { cache := [], regexCacheHits := 0, regexCacheMisses := 0, nextId := 0 }

/-- The cache key: `patternStr + '|||' + flagsStr`. -/
def mkKey (patternStr flagsStr : String) : String :=
  patternStr ++ "|||" ++ flagsStr

/-- The body of the `Cached` constructor (the `new.target` path, with
`pattern` and `flags` already coerced to strings).  On a hit the cached
object's `lastIndex` is set to 0 and the object itself is returned; on
a miss a fresh object is compiled, the oldest entry is evicted when the
cache is at capacity, and the new entry is appended. -/
def cachedConstruct (s : CacheState) (patternStr flagsStr : String) :
    RegexObj × CacheState :=
  let key := mkKey patternStr flagsStr
  match assocGet key s.cache with
  | some cached =>
      let updated := { cached with lastIndex := 0 }
      (updated,
        { s with
          cache := s.cache.map (fun e => if e.1 = key then (e.1, updated) else e),
          regexCacheHits := s.regexCacheHits + 1 })
  | none =>
      let regex : RegexObj :=
        { id := s.nextId, source := patternStr, flags := flagsStr, lastIndex := 0 }
      let afterEvict :=
        if CACHE_MAX_SIZE ≤ s.cache.length then s.cache.tail else s.cache
      (regex,
        { s with
          cache := afterEvict ++ [(key, regex)],
          regexCacheMisses := s.regexCacheMisses + 1,
          nextId := s.nextId + 1 })

/-- Run a sequence of constructor invocations `(pattern, flags)` against
the cache, discarding the returned objects. -/
def runRequests (s : CacheState) : List (String × String) → CacheState
  | [] => s
  | (p, f) :: rest => runRequests (cachedConstruct s p f).2 rest

theorem assocGet_map_set {α : Type} (k : String) (o' : α) :
    ∀ l : List (String × α), (assocGet k l).isSome →
      assocGet k (l.map (fun e => if e.1 = k then (e.1, o') else e)) = some o'
  | [], h => by simp [assocGet] at h
  | e :: rest, h => by
    by_cases hk : e.1 = k
    · simp [assocGet, hk]
    · simp [assocGet, hk] at h ⊢
      exact assocGet_map_set k o' rest h

theorem assocGet_map_set_none {α : Type} (k k' : String) (o' : α) (hne : k' ≠ k) :
    ∀ l : List (String × α),
      assocGet k' (l.map (fun e => if e.1 = k then (e.1, o') else e)) =
        assocGet k' l
  | [] => rfl
  | e :: rest => by
    by_cases hk : e.1 = k
    · simp [assocGet, hk, Ne.symm hne, assocGet_map_set_none k k' o' hne rest]
    · simp [assocGet, hk]
      by_cases hk' : e.1 = k'
      · simp [hk']
      · simp [hk', assocGet_map_set_none k k' o' hne rest]

theorem assocGet_append_self {α : Type} (k : String) (o : α) :
    ∀ l : List (String × α), assocGet k l = none →
      assocGet k (l ++ [(k, o)]) = some o
  | [], _ => by simp [assocGet]
  | e :: rest, h => by
    by_cases hk : e.1 = k
    · simp [assocGet, hk] at h
    · simp [assocGet, hk] at h ⊢
      exact assocGet_append_self k o rest h

theorem assocGet_tail_none {α : Type} (k : String) :
    ∀ l : List (String × α), assocGet k l = none → assocGet k l.tail = none
  | [], _ => rfl
  | e :: rest, h => by
    by_cases hk : e.1 = k
    · simp [assocGet, hk] at h
    · simpa [assocGet, hk] using h

theorem cachedConstruct_length_le (s : CacheState) (p f : String)
    (h : s.cache.length ≤ CACHE_MAX_SIZE) :
    (cachedConstruct s p f).2.cache.length ≤ CACHE_MAX_SIZE := by
  cases hg : assocGet (mkKey p f) s.cache with
  | some cached => simpa [cachedConstruct, hg] using h
  | none =>
      by_cases hc : CACHE_MAX_SIZE ≤ s.cache.length
      · have hlen : s.cache.length = CACHE_MAX_SIZE := le_antisymm h hc
        have hpos : 0 < s.cache.length :=
          lt_of_lt_of_le (show 0 < CACHE_MAX_SIZE by norm_num [CACHE_MAX_SIZE]) hc
        have htail : s.cache.tail.length = s.cache.length - 1 :=
          List.length_tail _
        simp [cachedConstruct, hg, hc]
        omega
      · simp [cachedConstruct, hg, hc]
        omega

theorem runRequests_length_le (reqs : List (String × String)) :
    ∀ s : CacheState, s.cache.length ≤ CACHE_MAX_SIZE →
      (runRequests s reqs).cache.length ≤ CACHE_MAX_SIZE := by
  induction reqs with
  | nil => intro s h; exact h
  | cons r rest ih =>
      intro s h
      exact ih _ (cachedConstruct_length_le s r.1 r.2 h)

/-- A state used to witness the eviction behaviour: a cache filled with
`CACHE_MAX_SIZE` distinct keys. -/
def fullCacheState : CacheState :=
  { cache := (List.range CACHE_MAX_SIZE).map
      (fun i => (mkKey (Nat.repr i) "g",
        { id := i, source := Nat.repr i, flags := "g", lastIndex := 0 })),
    regexCacheHits := 0, regexCacheMisses := 0, nextId := CACHE_MAX_SIZE }

/-- The streaming-related settings read by the controller handlers. -/
structure Settings where
  enabled : Bool
  deferRegexDuringStreaming : Bool
  reduceStreamingEffects : Bool
  deriving Repr, DecidableEq

/-- Module-level state touched by the streaming-phase controller:
the three boolean flags, the externally owned
`extension_settings.disabledExtensions` suspension list, the
`stats.regexSkipped` counter, whether the `perf-streaming` CSS class is
on `<body>`, and a counter of reapplication passes (scheduled
`rerenderLastMessage` calls). -/
structure CtrlState where
  isGenerating : Bool
  regexDisabled : Bool
  regexWasAlreadyDisabled : Bool
  disabledExtensions : List String
  regexSkipped : Nat
  streamingCSS : Bool
  rerenders : Nat
  deriving Repr, DecidableEq

/-- Remove the first occurrence of `x`, modelling
`indexOf` + `splice(idx, 1)` (a no-op when `indexOf` returns `-1`). -/
def spliceOut (x : String) : List String → List String
  | [] => []
  | y :: rest => if y = x then rest else y :: spliceOut x rest

/-- `disableRegexForStreaming`: records whether the `'regex'` sentinel
was already present; if it was not, appends it and bumps
`stats.regexSkipped`. -/
def disableRegexForStreaming (st : Settings) (s : CtrlState) : CtrlState :=
  if !st.deferRegexDuringStreaming then s
  else
    let wasAlready := s.disabledExtensions.contains "regex"
    let s' := { s with regexWasAlreadyDisabled := wasAlready }
    if !wasAlready then
      { s' with
        disabledExtensions := s'.disabledExtensions ++ ["regex"],
        regexSkipped := s'.regexSkipped + 1 }
    else s'

/-- `restoreRegexAfterStreaming`: removes the `'regex'` sentinel only if
this controller added it (`regexWasAlreadyDisabled` is false). -/
def restoreRegexAfterStreaming (st : Settings) (s : CtrlState) : CtrlState :=
  if !st.deferRegexDuringStreaming then s
  else if !s.regexWasAlreadyDisabled then
    { s with disabledExtensions := spliceOut "regex" s.disabledExtensions }
  else s

/-- `onGenerationStarted(type)`. -/
def onGenerationStarted (st : Settings) (kind : String) (s : CtrlState) :
    CtrlState :=
  if !st.enabled then s
  else if kind = "quiet" then s
  else { s with isGenerating := true }

/-- `onStreamTokenReceived()`: on the first token of a session, defers
regex and (optionally) enables the streaming CSS mode; later tokens are
no-ops. -/
def onStreamTokenReceived (st : Settings) (s : CtrlState) : CtrlState :=
  if !st.enabled || !s.isGenerating then s
  else if !s.regexDisabled then
    let s' := { disableRegexForStreaming st s with regexDisabled := true }
    if st.reduceStreamingEffects then { s' with streamingCSS := true } else s'
  else s

/-- `onGenerationEnded()`: clears `isGenerating`; if regex was deferred,
restores it, disables the streaming CSS mode and schedules exactly one
re-render of the last message (counted in `rerenders`). -/
def onGenerationEnded (st : Settings) (s : CtrlState) : CtrlState :=
  if !s.isGenerating then s
  else
    let s1 := { s with isGenerating := false }
    if !s1.regexDisabled then s1
    else
      let s2 := { s1 with regexDisabled := false }
      let s3 := restoreRegexAfterStreaming st s2
      let s4 := { s3 with streamingCSS := false }
      { s4 with rerenders := s4.rerenders + 1 }

/-- The lifecycle signals consumed by the controller. -/
inductive Signal where
  | started (kind : String)
  | token
  | ended
  deriving Repr, DecidableEq

/-- Dispatch one signal to its handler. -/
def stepSignal (st : Settings) (s : CtrlState) : Signal → CtrlState
  | .started kind => onGenerationStarted st kind s
  | .token => onStreamTokenReceived st s
  | .ended => onGenerationEnded st s

/-- The controller state at module load. -/
def initialCtrlState : CtrlState :=
  { isGenerating := false, regexDisabled := false,
    regexWasAlreadyDisabled := false, disabledExtensions := [],
    regexSkipped := 0, streamingCSS := false, rerenders := 0 }

/-- Run a list of lifecycle signals in order. -/
def runSignals (st : Settings) (s : CtrlState) : List Signal → CtrlState
  | [] => s
  | sig :: rest => runSignals st (stepSignal st s sig) rest

theorem spliceOut_append_self (x : String) (l : List String) (h : x ∉ l) :
    spliceOut x (l ++ [x]) = l := by
  induction l with
  | nil => simp [spliceOut]
  | cons y rest ih =>
      have hy : ¬(y = x) := fun he => h (by simp [he])
      have hrest : x ∉ rest := fun hm => h (List.mem_cons_of_mem _ hm)
      simp [spliceOut, hy, ih hrest]

/-- Global state touched by `enableRegexCache` / `disableRegexCache`:
the current global `window.RegExp` binding, the saved
`OriginalRegExp` reference (null when the cache is not installed), and
the `regexCache` map.  Function references are modelled by numeric
identity tags. -/
structure GlobalState where
  windowRegExp : Nat
  originalRegExp : Option Nat
  regexCache : List (String × RegexObj)
  deriving Repr, DecidableEq

/-- `enableRegexCache`: a no-op if already installed
(`OriginalRegExp` non-null) or on a WebKit engine; otherwise saves the
current global compiler and installs the freshly created `Cached`
wrapper (reference `cachedRef`). -/
def enableRegexCache (isWebKit : Bool) (cachedRef : Nat) (g : GlobalState) :
    GlobalState :=
  if g.originalRegExp.isSome then g
  else if isWebKit then g
  else
    { g with
      originalRegExp := some g.windowRegExp,
      windowRegExp := cachedRef }

/-- `disableRegexCache`: a no-op when not installed; otherwise restores
the saved original global compiler, nulls the saved reference and
clears every cache entry. -/
def disableRegexCache (g : GlobalState) : GlobalState :=
  match g.originalRegExp with
  | none => g
  | some orig =>
      { windowRegExp := orig, originalRegExp := none, regexCache := [] }

/-- `defaultSettings` from the source (file `src/unnamed/part_000`; the
`globalBlurSuppression` default is the environment-dependent `isMobile`
test, taken as a parameter). -/
def defaultSettings (isMobile : Bool) : List (String × Bool) :=
  [("enabled", true),
   ("deferRegexDuringStreaming", true),
   ("cacheRegex", true),
   ("cssContainment", true),
   ("reduceStreamingEffects", true),
   ("lightHtmlRenderer", true),
   ("preventScrollJump", true),
   ("globalBlurSuppression", isMobile)]

/-- Models the JavaScript `key in obj` test on a settings object. -/
def hasKey (k : String) (l : List (String × Bool)) : Bool :=
  l.any (fun e => e.1 == k)

/-- One iteration of the merge loop in `getSettings`: backfill the
entry `kv` only when its key is absent. -/
def mergeMissing (acc : List (String × Bool)) (kv : String × Bool) :
    List (String × Bool) :=
  if hasKey kv.1 acc then acc else acc ++ [kv]

/-- `getSettings`: if no settings object is stored, start from a copy of
the defaults; then backfill every default key that is missing.  Total by
construction (the JavaScript original likewise performs no throwing
operation on its inputs). -/
def getSettings (isMobile : Bool) (stored : Option (List (String × Bool))) :
    List (String × Bool) :=
  let obj := match stored with
    | none => defaultSettings isMobile
    | some o => o
  (defaultSettings isMobile).foldl mergeMissing obj

theorem hasKey_eq_isSome (k : String) :
    ∀ l : List (String × Bool), hasKey k l = (assocGet k l).isSome
  | [] => rfl
  | e :: rest => by
    by_cases hk : e.1 = k
    · simp [hasKey, assocGet, hk]
    · simp [hasKey, assocGet, hk, ← hasKey_eq_isSome k rest, hasKey]

theorem assocGet_append_left {α : Type} (k : String) (l2 : List (String × α)) :
    ∀ l1 : List (String × α), (assocGet k l1).isSome →
      assocGet k (l1 ++ l2) = assocGet k l1
  | [], h => by simp [assocGet] at h
  | e :: rest, h => by
    by_cases hk : e.1 = k
    · simp [assocGet, hk]
    · simp [assocGet, hk] at h ⊢
      exact assocGet_append_left k l2 rest h

theorem assocGet_append_none {α : Type} (k : String) (kv : String × α)
    (hne : kv.1 ≠ k) :
    ∀ l1 : List (String × α), assocGet k l1 = none →
      assocGet k (l1 ++ [kv]) = none
  | [], _ => by simp [assocGet, hne]
  | e :: rest, h => by
    by_cases hk : e.1 = k
    · simp [assocGet, hk] at h
    · simp [assocGet, hk] at h ⊢
      exact assocGet_append_none k kv hne rest h

theorem foldl_merge_preserves (k : String) :
    ∀ (l : List (String × Bool)) (obj : List (String × Bool)),
      (assocGet k obj).isSome →
      assocGet k (l.foldl mergeMissing obj) = assocGet k obj
  | [], _, _ => rfl
  | kv :: rest, obj, h => by
    have hstep : assocGet k (mergeMissing obj kv) = assocGet k obj := by
      unfold mergeMissing
      by_cases hm : hasKey kv.1 obj
      · simp [hm]
      · simp only [hm, if_false, Bool.false_eq_true]
        exact assocGet_append_left k [kv] obj h
    have hsome : (assocGet k (mergeMissing obj kv)).isSome := by
      rw [hstep]; exact h
    calc assocGet k ((kv :: rest).foldl mergeMissing obj)
        = assocGet k (rest.foldl mergeMissing (mergeMissing obj kv)) := rfl
      _ = assocGet k (mergeMissing obj kv) :=
          foldl_merge_preserves k rest (mergeMissing obj kv) hsome
      _ = assocGet k obj := hstep

theorem foldl_merge_backfills (k : String) (v : Bool) :
    ∀ (l : List (String × Bool)) (obj : List (String × Bool)),
      assocGet k obj = none → assocGet k l = some v →
      assocGet k (l.foldl mergeMissing obj) = some v
  | [], _, _, hl => by simp [assocGet] at hl
  | kv :: rest, obj, hobj, hl => by
    obtain ⟨k1, v1⟩ := kv
    by_cases hk : k1 = k
    · subst hk
      have hv : v1 = v := by simpa [assocGet] using hl
      subst hv
      have hmiss : hasKey k1 obj = false := by
        rw [hasKey_eq_isSome, hobj]; rfl
      have hstep : mergeMissing obj (k1, v1) = obj ++ [(k1, v1)] := by
        simp [mergeMissing, hmiss]
      have hget : assocGet k1 (obj ++ [(k1, v1)]) = some v1 :=
        assocGet_append_self k1 v1 obj hobj
      have hsome : (assocGet k1 (mergeMissing obj (k1, v1))).isSome := by
        rw [hstep, hget]; rfl
      calc assocGet k1 (((k1, v1) :: rest).foldl mergeMissing obj)
          = assocGet k1 (rest.foldl mergeMissing (mergeMissing obj (k1, v1))) :=
            rfl
        _ = assocGet k1 (mergeMissing obj (k1, v1)) :=
            foldl_merge_preserves k1 rest _ hsome
        _ = some v1 := by rw [hstep, hget]
    · have hl' : assocGet k rest = some v := by
        simpa [assocGet, hk] using hl
      have hobj' : assocGet k (mergeMissing obj (k1, v1)) = none := by
        unfold mergeMissing
        by_cases hm : hasKey (k1, v1).1 obj
        · simpa [hm] using hobj
        · simp only [hm, if_false, Bool.false_eq_true]
          exact assocGet_append_none k (k1, v1) hk obj hobj
      exact foldl_merge_backfills k v rest (mergeMissing obj (k1, v1)) hobj' hl'

theorem foldl_merge_none (k : String) :
    ∀ (l : List (String × Bool)) (obj : List (String × Bool)),
      assocGet k obj = none → assocGet k l = none →
      assocGet k (l.foldl mergeMissing obj) = none
  | [], _, hobj, _ => hobj
  | kv :: rest, obj, hobj, hl => by
    by_cases hk : kv.1 = k
    · simp [assocGet, hk] at hl
    · have hl' : assocGet k rest = none := by
        simpa [assocGet, hk] using hl
      have hobj' : assocGet k (mergeMissing obj kv) = none := by
        unfold mergeMissing
        by_cases hm : hasKey kv.1 obj
        · simpa [hm] using hobj
        · simp only [hm, if_false, Bool.false_eq_true]
          exact assocGet_append_none k kv hk obj hobj
      exact foldl_merge_none k rest (mergeMissing obj kv) hobj' hl'

theorem foldl_merge_id :
    ∀ (l : List (String × Bool)) (obj : List (String × Bool)),
      (∀ kv ∈ l, hasKey kv.1 obj = true) → l.foldl mergeMissing obj = obj
  | [], _, _ => rfl
  | kv :: rest, obj, h => by
    have hkv : hasKey kv.1 obj = true := h kv (by simp)
    have hstep : mergeMissing obj kv = obj := by simp [mergeMissing, hkv]
    calc (kv :: rest).foldl mergeMissing obj
        = rest.foldl mergeMissing (mergeMissing obj kv) := rfl
      _ = obj := by
          rw [hstep]
          exact foldl_merge_id rest obj (fun e he => h e (by simp [he]))

/-- The scroll metrics of the `#chat` container at one instant. -/
structure ChatMetrics where
  scrollTop : Int
  scrollHeight : Int
  clientHeight : Int
  deriving Repr, DecidableEq

/-- The `savedScrollInfo` snapshot captured on hide. -/
structure ScrollInfo where
  scrollTop : Int
  scrollHeight : Int
  clientHeight : Int
  distanceFromBottom : Int
  deriving Repr, DecidableEq

/-- Module state of the scroll-anchor preserver. -/
structure VisState where
  savedScrollInfo : Option ScrollInfo
  scrollRestored : Nat
  deriving Repr, DecidableEq

/-- The scroll-preserver state at module load. -/
def initialVisState : VisState := { savedScrollInfo := none, scrollRestored := 0 }

/-- `onVisibilityChange`: `chat` carries the container metrics at the
moment the handler body runs (`none` when `#chat` is absent), `hidden`
is `document.hidden`.  Returns the new module state and, when a restore
fires, the scroll position that is applied (the two
`requestAnimationFrame` hops delay the write; the metrics read then are
the ones passed here). -/
def onVisibilityChange (enabled preventScrollJump : Bool)
    (chat : Option ChatMetrics) (hidden : Bool) (s : VisState) :
    VisState × Option Int :=
  if !enabled || !preventScrollJump then (s, none)
  else
    match chat with
    | none => (s, none)
    | some c =>
        if hidden then
          ({ s with
              savedScrollInfo := some
                { scrollTop := c.scrollTop, scrollHeight := c.scrollHeight,
                  clientHeight := c.clientHeight,
                  distanceFromBottom :=
                    c.scrollHeight - c.scrollTop - c.clientHeight } },
            none)
        else
          match s.savedScrollInfo with
          | none => (s, none)
          | some info =>
              let newScrollTop :=
                c.scrollHeight - c.clientHeight - info.distanceFromBottom
              ({ savedScrollInfo := none,
                 scrollRestored := s.scrollRestored + 1 },
                some (max 0 newScrollTop))

/-- Run the setup steps of `init` (settings read, UI creation, event
subscriptions, feature enabling) in order; any step may throw, and a
throw aborts the remaining steps. -/
def runSetupSteps : List (Except String Unit) → Except String Unit
  | [] => .ok ()
  | step :: rest =>
      match step with
      | .ok _ => runSetupSteps rest
      | .error e => .error e

/-- The `init` of `src/index.js` and `src/unnamed/part_000`: the whole
body runs inside `try { ... } catch (err) { console.error(...) }`, so a
throwing step is logged and swallowed. -/
def initGuarded (steps : List (Except String Unit)) : Except String Unit :=
  match runSetupSteps steps with
  | .ok _ => .ok ()
  | .error _ => .ok ()

/-- The `init` of `src/unnamed/part_001`: the same setup steps with no
`try`/`catch` around them, so a throwing step propagates to the
caller. -/
def initUnguarded (steps : List (Except String Unit)) : Except String Unit :=
  runSetupSteps steps

end PerfOpt

open PerfOpt

/-- **C1.** With the cache enabled, invoking the `Cached` constructor twice
in succession with the same pattern source string and flag string returns,
on the second call, an object reference-equal (same identity tag) to the
one returned by the first call, and on that hit the returned object's
`lastIndex` read cursor is 0.  Holds from any cache state. -/
theorem cache_hit_reference_equal (s : CacheState) (p f : String) :
    (cachedConstruct (cachedConstruct s p f).2 p f).1.id =
        (cachedConstruct s p f).1.id ∧
      (cachedConstruct (cachedConstruct s p f).2 p f).1.lastIndex = 0 := by
  cases h : assocGet (mkKey p f) s.cache with
  | some cached =>
      have hs : (assocGet (mkKey p f) s.cache).isSome := by rw [h]; rfl
      have h2 := assocGet_map_set (mkKey p f)
        ({ cached with lastIndex := 0 }) s.cache hs
      simp [cachedConstruct, h, h2]
  | none =>
      have htail : assocGet (mkKey p f)
          (if CACHE_MAX_SIZE ≤ s.cache.length then s.cache.tail else s.cache) = none := by
        by_cases hc : CACHE_MAX_SIZE ≤ s.cache.length
        · simpa [hc] using assocGet_tail_none (mkKey p f) s.cache h
        · simpa [hc] using h
      have h2 := assocGet_append_self (mkKey p f)
        ({ id := s.nextId, source := p, flags := f, lastIndex := 0 } : RegexObj)
        _ htail
      simp [cachedConstruct, h, h2]

/-- **C2.** (1) Starting from the empty cache, after any sequence of
constructor requests the cache holds at most `CACHE_MAX_SIZE = 500`
entries.  (2) On a miss while the cache is at capacity, exactly the
oldest-inserted entry (the head of the insertion-ordered list) is
evicted and the fresh entry is appended at the tail.  (3) A cache hit
leaves the key sequence — hence each entry's position in the eviction
order — unchanged. -/
theorem cache_bounded_fifo_eviction :
    (∀ reqs : List (String × String),
      (runRequests initialCacheState reqs).cache.length ≤ CACHE_MAX_SIZE) ∧
    (∀ (s : CacheState) (p f : String),
      assocGet (mkKey p f) s.cache = none →
      s.cache.length = CACHE_MAX_SIZE →
      (cachedConstruct s p f).2.cache =
        s.cache.tail ++
          [(mkKey p f,
            { id := s.nextId, source := p, flags := f, lastIndex := 0 })]) ∧
    (∀ (s : CacheState) (p f : String),
      (assocGet (mkKey p f) s.cache).isSome →
      (cachedConstruct s p f).2.cache.map Prod.fst = s.cache.map Prod.fst) := by
  refine ⟨?_, ?_, ?_⟩
  · intro reqs
    exact runRequests_length_le reqs initialCacheState (by simp [initialCacheState])
  · intro s p f hmiss hfull
    have hc : CACHE_MAX_SIZE ≤ s.cache.length := le_of_eq hfull.symm
    simp [cachedConstruct, hmiss, hc]
  · intro s p f hhit
    cases hg : assocGet (mkKey p f) s.cache with
    | none => rw [hg] at hhit; simp at hhit
    | some cached =>
        simp only [cachedConstruct, hg, List.map_map]
        apply List.map_congr_left
        intro e _
        by_cases hk : e.1 = mkKey p f <;> simp [hk]

/-- Closed witness for `cache_bounded_fifo_eviction`: instantiates the
bound after two concrete requests, the eviction clause at the concrete
full state `fullCacheState` with the fresh key `x|||`, and the
order-preservation clause at a one-entry state with a hitting key. -/
theorem cache_bounded_fifo_eviction_witness :
    (runRequests initialCacheState [("a", "g"), ("b", "")]).cache.length ≤
        CACHE_MAX_SIZE ∧
    (cachedConstruct fullCacheState "x" "").2.cache =
      fullCacheState.cache.tail ++
        [(mkKey "x" "",
          { id := fullCacheState.nextId, source := "x", flags := "",
            lastIndex := 0 })] ∧
    (cachedConstruct (cachedConstruct initialCacheState "a" "g").2 "a" "g").2.cache.map
        Prod.fst =
      (cachedConstruct initialCacheState "a" "g").2.cache.map Prod.fst :=
  ⟨cache_bounded_fifo_eviction.1 [("a", "g"), ("b", "")],
   cache_bounded_fifo_eviction.2.1 fullCacheState "x" "" (by decide)
     (by simp [fullCacheState]),
   cache_bounded_fifo_eviction.2.2 _ "a" "g" (by decide)⟩

/-- **C3.** For the signal sequence `started, token, token, token, ended`
with the defer feature enabled and the `'regex'` sentinel not already
present: the sentinel is appended to the suspension list exactly once —
on the first token; the later tokens change nothing at all — and it is
removed exactly once on `ended`, after which exactly one reapplication
pass (re-render of the last message) is triggered. -/
theorem streaming_defer_lifecycle (st : Settings) (kind : String)
    (s0 : CtrlState)
    (hEn : st.enabled = true) (hDefer : st.deferRegexDuringStreaming = true)
    (hKind : kind ≠ "quiet")
    (hNo : "regex" ∉ s0.disabledExtensions)
    (hRd : s0.regexDisabled = false) :
    (runSignals st s0 [.started kind, .token]).disabledExtensions =
        s0.disabledExtensions ++ ["regex"] ∧
    runSignals st s0 [.started kind, .token, .token] =
        runSignals st s0 [.started kind, .token] ∧
    runSignals st s0 [.started kind, .token, .token, .token] =
        runSignals st s0 [.started kind, .token] ∧
    (runSignals st s0
        [.started kind, .token, .token, .token, .ended]).disabledExtensions =
        s0.disabledExtensions ∧
    (runSignals st s0
        [.started kind, .token, .token, .token, .ended]).rerenders =
        s0.rerenders + 1 := by
  have hcont : s0.disabledExtensions.contains "regex" = false := by
    simpa using hNo
  have hsp := spliceOut_append_self "regex" s0.disabledExtensions hNo
  obtain ⟨en, defer, reduce⟩ := st
  simp only at hEn hDefer
  subst hEn hDefer
  cases reduce <;>
    simp [runSignals, stepSignal, onGenerationStarted, onStreamTokenReceived,
      onGenerationEnded, disableRegexForStreaming, restoreRegexAfterStreaming,
      hKind, hcont, hNo, hRd, hsp]

/-- Closed witness for `streaming_defer_lifecycle`, at the module-load
state with default-on settings and a `'normal'` generation. -/
theorem streaming_defer_lifecycle_witness :
    (runSignals ⟨true, true, true⟩ initialCtrlState
        [.started "normal", .token]).disabledExtensions =
        initialCtrlState.disabledExtensions ++ ["regex"] ∧
    runSignals ⟨true, true, true⟩ initialCtrlState
        [.started "normal", .token, .token] =
        runSignals ⟨true, true, true⟩ initialCtrlState
          [.started "normal", .token] ∧
    runSignals ⟨true, true, true⟩ initialCtrlState
        [.started "normal", .token, .token, .token] =
        runSignals ⟨true, true, true⟩ initialCtrlState
          [.started "normal", .token] ∧
    (runSignals ⟨true, true, true⟩ initialCtrlState
        [.started "normal", .token, .token, .token,
          .ended]).disabledExtensions =
        initialCtrlState.disabledExtensions ∧
    (runSignals ⟨true, true, true⟩ initialCtrlState
        [.started "normal", .token, .token, .token, .ended]).rerenders =
        initialCtrlState.rerenders + 1 :=
  streaming_defer_lifecycle ⟨true, true, true⟩ "normal" initialCtrlState
    rfl rfl (by decide) (by decide) rfl

/-- **C4.** If the `'regex'` sentinel was already in the suspension list
before the first token (deferral independently active), then over
`started, token, ended` the controller never touches the list — in
particular it does not remove the sentinel on `ended`, which is still
present afterwards — but the reapplication pass is still performed. -/
theorem streaming_defer_already_active (st : Settings) (kind : String)
    (s0 : CtrlState)
    (hEn : st.enabled = true) (hDefer : st.deferRegexDuringStreaming = true)
    (hKind : kind ≠ "quiet")
    (hYes : "regex" ∈ s0.disabledExtensions)
    (hRd : s0.regexDisabled = false) :
    (runSignals st s0 [.started kind, .token, .ended]).disabledExtensions =
        s0.disabledExtensions ∧
    "regex" ∈
      (runSignals st s0 [.started kind, .token, .ended]).disabledExtensions ∧
    (runSignals st s0 [.started kind, .token, .ended]).rerenders =
        s0.rerenders + 1 := by
  have hcont : s0.disabledExtensions.contains "regex" = true := by
    simpa using hYes
  obtain ⟨en, defer, reduce⟩ := st
  simp only at hEn hDefer
  subst hEn hDefer
  cases reduce <;>
    simp [runSignals, stepSignal, onGenerationStarted, onStreamTokenReceived,
      onGenerationEnded, disableRegexForStreaming, restoreRegexAfterStreaming,
      hKind, hcont, hRd, hYes]

/-- Closed witness for `streaming_defer_already_active`, with the
sentinel pre-inserted by an unrelated actor. -/
theorem streaming_defer_already_active_witness :
    (runSignals ⟨true, true, true⟩
        { initialCtrlState with disabledExtensions := ["regex"] }
        [.started "normal", .token, .ended]).disabledExtensions =
        ["regex"] ∧
    "regex" ∈
      (runSignals ⟨true, true, true⟩
        { initialCtrlState with disabledExtensions := ["regex"] }
        [.started "normal", .token, .ended]).disabledExtensions ∧
    (runSignals ⟨true, true, true⟩
        { initialCtrlState with disabledExtensions := ["regex"] }
        [.started "normal", .token, .ended]).rerenders =
        initialCtrlState.rerenders + 1 :=
  streaming_defer_already_active ⟨true, true, true⟩ "normal"
    { initialCtrlState with disabledExtensions := ["regex"] }
    rfl rfl (by decide) (by decide) rfl

/-- **C5.** A `started` immediately followed by `ended`, with no token in
between: the sentinel is never added, no reapplication pass is
triggered, and the end state differs from the start state only in that
`isGenerating` is cleared.  Holds for every settings value, generation
kind, and start state whose `regexDisabled` flag is clear. -/
theorem started_ended_no_token (st : Settings) (kind : String)
    (s0 : CtrlState) (hRd : s0.regexDisabled = false) :
    runSignals st s0 [.started kind, .ended] =
      { s0 with isGenerating := false } := by
  obtain ⟨en, defer, reduce⟩ := st
  obtain ⟨g, rd, wd, de, sk, css, rr⟩ := s0
  simp only at hRd
  subst hRd
  cases en <;> cases g <;>
    by_cases hKind : kind = "quiet" <;>
    simp [runSignals, stepSignal, onGenerationStarted, onGenerationEnded,
      hKind]

/-- Closed witness for `started_ended_no_token` at the module-load
state. -/
theorem started_ended_no_token_witness :
    runSignals ⟨true, true, true⟩ initialCtrlState
        [.started "normal", .ended] =
      { initialCtrlState with isGenerating := false } :=
  started_ended_no_token ⟨true, true, true⟩ "normal" initialCtrlState rfl

/-- **C7.** (1) After enabling the cache (on a non-WebKit engine, from a
not-yet-enabled state), `disableRegexCache` restores the global
compiler to exactly the saved pre-enable reference, nulls the saved
reference and clears every cache entry — whatever the wrapper reference
and cache contents were.  (2) `disableRegexCache` is idempotent on
every state: a second call in a row changes nothing.  (3) In
particular, when the cache was never enabled (no saved reference) the
call is a complete no-op. -/
theorem disableRegexCache_restores_and_idempotent :
    (∀ (g : GlobalState) (r : Nat) (g' : GlobalState),
      g.originalRegExp = none →
      g' = enableRegexCache false r g →
      disableRegexCache g' =
        { windowRegExp := g.windowRegExp, originalRegExp := none,
          regexCache := [] }) ∧
    (∀ g : GlobalState,
      disableRegexCache (disableRegexCache g) = disableRegexCache g) ∧
    (∀ g : GlobalState, g.originalRegExp = none → disableRegexCache g = g) := by
  refine ⟨?_, ?_, ?_⟩
  · intro g r g' hnone hg'
    subst hg'
    simp [enableRegexCache, disableRegexCache, hnone]
  · intro g
    cases h : g.originalRegExp with
    | none => simp [disableRegexCache, h]
    | some orig => simp [disableRegexCache, h]
  · intro g h
    cases g with
    | mk w o c => simp at h; simp [disableRegexCache, h]

/-- Closed witness for `disableRegexCache_restores_and_idempotent` at a
concrete global state holding compiler reference 7 and one stale cache
entry. -/
theorem disableRegexCache_restores_and_idempotent_witness :
    disableRegexCache
        (enableRegexCache false 8
          { windowRegExp := 7, originalRegExp := none,
            regexCache := [(mkKey "a" "g",
              { id := 0, source := "a", flags := "g", lastIndex := 2 })] }) =
      { windowRegExp := 7, originalRegExp := none, regexCache := [] } ∧
    disableRegexCache
        (disableRegexCache
          { windowRegExp := 8, originalRegExp := some 7,
            regexCache := [] }) =
      disableRegexCache
        { windowRegExp := 8, originalRegExp := some 7, regexCache := [] } ∧
    disableRegexCache
        { windowRegExp := 7, originalRegExp := none, regexCache := [] } =
      { windowRegExp := 7, originalRegExp := none, regexCache := [] } :=
  ⟨disableRegexCache_restores_and_idempotent.1
      { windowRegExp := 7, originalRegExp := none,
        regexCache := [(mkKey "a" "g",
          { id := 0, source := "a", flags := "g", lastIndex := 2 })] }
      8 _ rfl rfl,
   disableRegexCache_restores_and_idempotent.2.1
      { windowRegExp := 8, originalRegExp := some 7, regexCache := [] },
   disableRegexCache_restores_and_idempotent.2.2
      { windowRegExp := 7, originalRegExp := none, regexCache := [] } rfl⟩

/-- **C8.** Reading the settings is non-destructive: (1) every key
already present in the stored object keeps its stored value, even when
it differs from the default; (2) a key missing from the stored object
comes back with exactly its default value (and keys that are not
settings keys stay absent); (3) when no settings object is stored at
all, the read yields exactly the defaults.  The read is a total
function, so it never throws. -/
theorem getSettings_nondestructive_merge :
    (∀ (m : Bool) (o : List (String × Bool)) (k : String) (v : Bool),
      assocGet k o = some v →
      assocGet k (getSettings m (some o)) = some v) ∧
    (∀ (m : Bool) (o : List (String × Bool)) (k : String),
      assocGet k o = none →
      assocGet k (getSettings m (some o)) = assocGet k (defaultSettings m)) ∧
    (∀ m : Bool, getSettings m none = defaultSettings m) := by
  refine ⟨?_, ?_, ?_⟩
  · intro m o k v h
    have hsome : (assocGet k o).isSome := by rw [h]; rfl
    calc assocGet k (getSettings m (some o))
        = assocGet k o := foldl_merge_preserves k (defaultSettings m) o hsome
      _ = some v := h
  · intro m o k h
    cases hd : assocGet k (defaultSettings m) with
    | some v => exact foldl_merge_backfills k v (defaultSettings m) o h hd
    | none => exact foldl_merge_none k (defaultSettings m) o h hd
  · intro m
    have hall : ∀ kv ∈ defaultSettings m, hasKey kv.1 (defaultSettings m) = true := by
      cases m <;> decide
    exact foldl_merge_id (defaultSettings m) (defaultSettings m) hall

/-- Closed witness for `getSettings_nondestructive_merge`: a stored
object that disables `enabled` (differing from the default) and carries
a foreign key, read on a non-mobile environment, keeps both; the
missing `cacheRegex` key comes back with its default `true`; an absent
settings object yields the defaults. -/
theorem getSettings_nondestructive_merge_witness :
    assocGet "enabled"
        (getSettings false (some [("enabled", false), ("custom", true)])) =
      some false ∧
    assocGet "cacheRegex"
        (getSettings false (some [("enabled", false), ("custom", true)])) =
      assocGet "cacheRegex" (defaultSettings false) ∧
    getSettings false none = defaultSettings false :=
  ⟨getSettings_nondestructive_merge.1 false
      [("enabled", false), ("custom", true)] "enabled" false (by decide),
   getSettings_nondestructive_merge.2.1 false
      [("enabled", false), ("custom", true)] "cacheRegex" (by decide),
   getSettings_nondestructive_merge.2.2 false⟩

/-- **C9.** (1) The snapshot taken on hide stores
`distanceFromBottom = scrollHeight - scrollTop - clientHeight`.
(2) A show with a pending snapshot consumes it, bumps the restore
counter, and applies `scrollTop = scrollHeight - clientHeight -
storedDistance` clamped below at zero — so (3) a second show without an
intervening hide is a no-op.  (4) Concretely, hiding at
`scrollHeight = 1000, scrollTop = 700, clientHeight = 300` (distance 0)
and showing at `scrollHeight = 1200, clientHeight = 300` applies
`scrollTop = 900`. -/
theorem scroll_snapshot_restore :
    (∀ (c : ChatMetrics) (s : VisState),
      (onVisibilityChange true true (some c) true s).1.savedScrollInfo =
        some { scrollTop := c.scrollTop, scrollHeight := c.scrollHeight,
               clientHeight := c.clientHeight,
               distanceFromBottom :=
                 c.scrollHeight - c.scrollTop - c.clientHeight }) ∧
    (∀ (c : ChatMetrics) (s : VisState) (info : ScrollInfo),
      s.savedScrollInfo = some info →
      onVisibilityChange true true (some c) false s =
        ({ savedScrollInfo := none, scrollRestored := s.scrollRestored + 1 },
          some (max 0
            (c.scrollHeight - c.clientHeight - info.distanceFromBottom)))) ∧
    (∀ (c c' : ChatMetrics) (s : VisState) (info : ScrollInfo),
      s.savedScrollInfo = some info →
      onVisibilityChange true true (some c') false
          (onVisibilityChange true true (some c) false s).1 =
        ((onVisibilityChange true true (some c) false s).1, none)) ∧
    (onVisibilityChange true true
        (some { scrollTop := 0, scrollHeight := 1200, clientHeight := 300 })
        false
        (onVisibilityChange true true
          (some { scrollTop := 700, scrollHeight := 1000, clientHeight := 300 })
          true initialVisState).1).2 = some 900 := by
  refine ⟨?_, ?_, ?_, ?_⟩
  · intro c s
    simp [onVisibilityChange]
  · intro c s info h
    simp [onVisibilityChange, h]
  · intro c c' s info h
    simp [onVisibilityChange, h]
  · decide

/-- Closed witness for `scroll_snapshot_restore`, at concrete metrics:
hide at `1000/700/300`, restore at `1200/300`, and a repeated show. -/
theorem scroll_snapshot_restore_witness :
    (onVisibilityChange true true
        (some { scrollTop := 700, scrollHeight := 1000, clientHeight := 300 })
        true initialVisState).1.savedScrollInfo =
      some { scrollTop := 700, scrollHeight := 1000, clientHeight := 300,
             distanceFromBottom := 0 } ∧
    onVisibilityChange true true
        (some { scrollTop := 0, scrollHeight := 1200, clientHeight := 300 })
        false
        { savedScrollInfo :=
            some { scrollTop := 700, scrollHeight := 1000,
                   clientHeight := 300, distanceFromBottom := 0 },
          scrollRestored := 0 } =
      ({ savedScrollInfo := none, scrollRestored := 1 }, some 900) ∧
    onVisibilityChange true true
        (some { scrollTop := 0, scrollHeight := 1300, clientHeight := 300 })
        false
        (onVisibilityChange true true
          (some { scrollTop := 0, scrollHeight := 1200, clientHeight := 300 })
          false
          { savedScrollInfo :=
              some { scrollTop := 700, scrollHeight := 1000,
                     clientHeight := 300, distanceFromBottom := 0 },
            scrollRestored := 0 }).1 =
      ((onVisibilityChange true true
          (some { scrollTop := 0, scrollHeight := 1200, clientHeight := 300 })
          false
          { savedScrollInfo :=
              some { scrollTop := 700, scrollHeight := 1000,
                     clientHeight := 300, distanceFromBottom := 0 },
            scrollRestored := 0 }).1, none) := by
  refine ⟨?_, ?_, ?_⟩
  · have h := scroll_snapshot_restore.1
      { scrollTop := 700, scrollHeight := 1000, clientHeight := 300 }
      initialVisState
    simpa using h
  · have h := scroll_snapshot_restore.2.1
      { scrollTop := 0, scrollHeight := 1200, clientHeight := 300 }
      { savedScrollInfo :=
          some { scrollTop := 700, scrollHeight := 1000, clientHeight := 300,
                 distanceFromBottom := 0 },
        scrollRestored := 0 }
      { scrollTop := 700, scrollHeight := 1000, clientHeight := 300,
        distanceFromBottom := 0 } rfl
    simpa using h
  · exact scroll_snapshot_restore.2.2.1
      { scrollTop := 0, scrollHeight := 1200, clientHeight := 300 }
      { scrollTop := 0, scrollHeight := 1300, clientHeight := 300 }
      { savedScrollInfo :=
          some { scrollTop := 700, scrollHeight := 1000, clientHeight := 300,
                 distanceFromBottom := 0 },
        scrollRestored := 0 }
      { scrollTop := 700, scrollHeight := 1000, clientHeight := 300,
        distanceFromBottom := 0 } rfl

/-- **C6, counterexample.** The claim "for every possible setup failure,
init never propagates an exception to the caller" fails on the variant
in `src/unnamed/part_001`, whose `init` has no `try`/`catch`: a setup
step that throws (here, a throwing `createSettingsUI`) propagates
unhandled. -/
theorem init_variant_propagates :
    initUnguarded [Except.error "createSettingsUI threw"] =
      Except.error "createSettingsUI threw" := rfl

/-- **C6, amended.** The `init` bodies of `src/index.js` and
`src/unnamed/part_000` are wrapped whole in a `try`/`catch` that logs
and returns, so whatever setup steps run and however they fail, that
`init` returns normally and never propagates an exception. -/
theorem init_guarded_never_throws (steps : List (Except String Unit)) :
    initGuarded steps = Except.ok () := by
  unfold initGuarded
  cases runSetupSteps steps <;> rfl

/-- **C10.** The cache key is the concatenation
`source ++ "|||" ++ flags`, which is not injective: the distinct request
pairs `("a|||b", "")` and `("a", "b|||")` share one key, so with the
cache enabled the second request is served as a hit — it returns the
object compiled and cached for the first pair (same identity tag,
source `"a|||b"`, not its own arguments) instead of compiling its
own. -/
theorem cache_key_not_injective :
    mkKey "a|||b" "" = mkKey "a" "b|||" ∧
    ("a|||b", "") ≠ (("a", "b|||") : String × String) ∧
    (cachedConstruct (cachedConstruct initialCacheState "a|||b" "").2
        "a" "b|||").1.id =
      (cachedConstruct initialCacheState "a|||b" "").1.id ∧
    (cachedConstruct (cachedConstruct initialCacheState "a|||b" "").2
        "a" "b|||").1.source = "a|||b" ∧
    (cachedConstruct (cachedConstruct initialCacheState "a|||b" "").2
        "a" "b|||").2.regexCacheHits = 1 := by
  decide
